import Mathlib

/-!
Verification development for the Helio QuickBooks API app (src/server.js).

The definitions below are a shallow embedding of the app's core:
the paginated customer fetch (`getAllCustomers`), the gateway call
(`quickbooks`), the token round-trip through the temp-file store
(`setAccessToken` / `loadStoredToken`), the scheduled refresh
(`refreshToken` / `scheduledTick`), the status endpoint (`qbStatus`)
and the route registrations with the `decodeUserToken` guard.
Remote responses and transport outcomes are inputs to the embedded
functions; machine effects (HTTP, the JS event loop) are represented
by explicit data.
-/

namespace HelioQB

/-- JS coercion applied by parseInt to a possibly-absent field:
an absent field (`undefined`) stringifies to the text "undefined". -/
def jsArg : Option String → String
  | none => "undefined"
  | some s => s

/-- Longest leading run of decimal digits, as a number; `none` when the
run is empty (parseInt yields NaN there). -/
def parseDigits (cs : List Char) : Option Nat :=
  let ds := cs.takeWhile (fun c => c.isDigit)
  if ds.isEmpty then none
  else some (ds.foldl (fun a c => 10 * a + (c.toNat - 48)) 0)

/-- Model of JS parseInt with radix 10: skip leading whitespace, read an
optional sign and then the longest digit prefix; `none` models NaN. -/
def parseIntJS (s : String) : Option Int :=
  let cs := s.toList.dropWhile (fun c => c.isWhitespace)
  match cs with
  | '-' :: rest => (parseDigits rest).map (fun n => -(n : Int))
  | '+' :: rest => (parseDigits rest).map (fun n => (n : Int))
  | _ => (parseDigits cs).map (fun n => (n : Int))

/-- One page of a QBO query response, as read by `getAllCustomers`:
`results.QueryResponse.Customer` (the records, element type `α`) and
`results.QueryResponse.maxResults` as the string parseInt is applied to
(`none` when the field is missing from the JSON body). This shape is the
restriction of `RawQueryResponse` (defined below) to bodies whose
Customer array is present; `rawOf` injects it and
`getAllCustomersRaw_of_present` shows the two fetch models agree on it. -/
structure QueryResponse (α : Type) where
  customer : List α
  maxResults : Option String

/-- `parseInt(results.QueryResponse.maxResults)` from server.js line 126/133. -/
def parseMaxResults {α : Type} (p : QueryResponse α) : Option Int :=
  parseIntJS (jsArg p.maxResults)

/-- Well-formed remote page: the `maxResults` field parses to the number of
records in the page, and a page never exceeds the requested MAXRESULTS 1000. -/
def WF {α : Type} (p : QueryResponse α) : Prop :=
  parseMaxResults p = some (p.customer.length : Int) ∧ p.customer.length ≤ 1000

instance {α : Type} (p : QueryResponse α) : Decidable (WF p) := by
  unfold WF; infer_instance

/-- Query string of the first request (server.js line 124). -/
def firstPageQuery : String := "?query=SELECT * FROM Customer MAXRESULTS 1000"

/-- Query string of a follow-up request (server.js line 131); the code
interpolates the current value of the `maxResults` variable as the
STARTPOSITION clause. -/
def nextPageQuery (maxResults : Int) : String :=
  "?query=SELECT * FROM Customer STARTPOSITION " ++ toString maxResults ++
    " MAXRESULTS 1000"

/-- The start-offset clause an outbound request carries: `none` for the first
request (no STARTPOSITION clause), `some m` for STARTPOSITION m. -/
def offsetOfReq : Option Int → Int
  | none => 0
  | some m => m

/-- Whether a list of offsets is strictly increasing from each element to
the next. -/
def strictlyIncreasing : List Int → Bool
  | a :: b :: rest => a < b && strictlyIncreasing (b :: rest)
  | _ => true

/-- Query string carried by a request trace entry. -/
def queryOfReq : Option Int → String
  | none => firstPageQuery
  | some m => nextPageQuery m

/-- The `while (maxResults === 1000)` loop of `getAllCustomers`
(server.js lines 130-134), with an explicit fuel bound on the number of
iterations (the JS loop is unbounded), the request index `i` into the
stream of remote responses, the accumulated `customers` list, the current
`maxResults` variable (`none` models NaN) and the trace of outbound
start-offset clauses. Returns `none` when the fuel runs out with the loop
still running. -/
def qbWhile {α : Type} (pages : Nat → QueryResponse α) :
    Nat → Nat → List α → Option Int → List (Option Int) →
      Option (List α × List (Option Int))
  | 0, _, acc, maxResults, reqs =>
      if maxResults = some 1000 then none else some (acc, reqs)
  | f + 1, i, acc, maxResults, reqs =>
      if maxResults = some 1000 then
        qbWhile pages f (i + 1) (acc ++ (pages i).customer)
          (parseMaxResults (pages i)) (reqs ++ [some (maxResults.getD 0)])
      else some (acc, reqs)

/-- `getAllCustomers` (server.js lines 121-138) over a stream `pages` of
remote responses (`pages n` answers the n-th outbound request) and a fuel
bound. Returns the accumulated customers together with the trace of
outbound start-offset clauses (`none` = the first request, which carries
no STARTPOSITION clause); the JS function returns only the customers. -/
def getAllCustomers {α : Type} (pages : Nat → QueryResponse α) (fuel : Nat) :
    Option (List α × List (Option Int)) :=
  let results := pages 0
  let customers := results.customer
  let initialMaxResults := parseMaxResults results
  if initialMaxResults = some 1000 then
    qbWhile pages fuel 1 customers initialMaxResults [none]
  else
    some (customers, [none])

/-- Concatenation of the record lists of pages `i, i+1, ..., i+n-1`. -/
def pagesSlice {α : Type} (pages : Nat → QueryResponse α) : Nat → Nat → List α
  | _, 0 => []
  | i, n + 1 => (pages i).customer ++ pagesSlice pages (i + 1) n

/-- The credential object produced by the OAuth exchange and handed to
`setAccessToken`: a flat object with the token pair, the realm id, the
token type and the expiry fields. -/
structure Credential where
  access_token : String
  refresh_token : String
  realmId : String
  token_type : String
  expires_in : Nat
  x_refresh_token_expires_in : Nat
deriving DecidableEq

/-- JSON values as far as the token file needs them: strings, numbers and
flat objects. -/
inductive JVal
  | jstr (s : String)
  | jnum (n : Nat)
  | jobj (fields : List (String × JVal))

/-- First value bound to `key` in a JSON object's field list. -/
def jLookup : List (String × JVal) → String → Option JVal
  | [], _ => none
  | (k, v) :: rest, key => if k = key then some v else jLookup rest key

/-- `JSON.stringify(token)` (server.js line 84) on a credential: the flat
object written to the token file, field for field. -/
def stringifyCredential (c : Credential) : JVal :=
  .jobj [("access_token", .jstr c.access_token),
         ("refresh_token", .jstr c.refresh_token),
         ("realmId", .jstr c.realmId),
         ("token_type", .jstr c.token_type),
         ("expires_in", .jnum c.expires_in),
         ("x_refresh_token_expires_in", .jnum c.x_refresh_token_expires_in)]

/-- `JSON.parse` of the token file content, read back into a credential
(server.js line 68): each field of the flat object is looked up by the
same name `setAccessToken` wrote it under; any missing or ill-typed field
makes the parse fail. -/
def parseCredential (j : JVal) : Option Credential :=
  match j with
  | .jobj fs =>
    match jLookup fs "access_token", jLookup fs "refresh_token",
          jLookup fs "realmId", jLookup fs "token_type",
          jLookup fs "expires_in", jLookup fs "x_refresh_token_expires_in" with
    | some (.jstr a), some (.jstr r), some (.jstr rid), some (.jstr tt),
      some (.jnum e), some (.jnum x) => some ⟨a, r, rid, tt, e, x⟩
    | _, _, _, _, _, _ => none
  | _ => none

/-- `setAccessToken` (server.js lines 82-87): overwrites the token file with
the serialized credential, whatever it held before. The in-memory
`oauth.setToken` side is the credential itself. -/
def setAccessToken (c : Credential) (_store : Option JVal) : Option JVal :=
  some (stringifyCredential c)

/-- The startup load (server.js lines 66-74): reads the token file and
parses a credential from it; a missing or unparsable file yields `none`
(the app proceeds unauthenticated). -/
def loadStoredToken (store : Option JVal) : Option Credential :=
  store.bind parseCredential

/-- Log events emitted through `this.log`. -/
inductive LogEvent
  | info (msg : String)
  | errorLog (msg : String)
  | silly (msg : String)
deriving DecidableEq

/-- A JS Error value: its message and its optional `error` property
(plain `new Error(msg)` has no `error` property). -/
structure JsError where
  message : String
  error : Option String
deriving DecidableEq

/-- `new Error(msg)`: message set, no `error` property. -/
def mkError (msg : String) : JsError := ⟨msg, none⟩

/-- A query response body as actually delivered: the Customer array
itself may be absent, like the maxResults field — the real QBO
empty-result body is an empty QueryResponse object carrying neither. -/
structure RawQueryResponse (α : Type) where
  customer : Option (List α)
  maxResults : Option String

/-- `parseInt(results.QueryResponse.maxResults)` on a raw body. -/
def parseRawMaxResults {α : Type} (r : RawQueryResponse α) : Option Int :=
  parseIntJS (jsArg r.maxResults)

/-- The TypeError raised by `customers.push(...results.QueryResponse.Customer)`
(server.js lines 125 and 132) when the Customer array is absent: spreading
`undefined` throws before anything else runs. -/
def spreadTypeError : JsError := ⟨"undefined is not iterable", none⟩

/-- The `while (maxResults === 1000)` loop over raw bodies: fetching a page
whose Customer array is absent throws at the spread; on present arrays it
is `qbWhile`. `none` means the fuel ran out with the loop still running,
`some (.error e)` that the loop threw, `some (.ok cs)` that it finished. -/
def qbWhileRaw {α : Type} (pages : Nat → RawQueryResponse α) :
    Nat → Nat → List α → Option Int → Option (Except JsError (List α))
  | 0, _, acc, maxResults =>
      if maxResults = some 1000 then none else some (.ok acc)
  | f + 1, i, acc, maxResults =>
      if maxResults = some 1000 then
        match (pages i).customer with
        | none => some (.error spreadTypeError)
        | some cs =>
            qbWhileRaw pages f (i + 1) (acc ++ cs) (parseRawMaxResults (pages i))
      else some (.ok acc)

/-- `getAllCustomers` (server.js lines 121-138) over raw bodies: line 125
spreads the first page's Customer array before the maxResults parse, so a
body without the array throws right there; otherwise the function
proceeds exactly as `getAllCustomers`. -/
def getAllCustomersRaw {α : Type} (pages : Nat → RawQueryResponse α)
    (fuel : Nat) : Option (Except JsError (List α)) :=
  match (pages 0).customer with
  | none => some (.error spreadTypeError)
  | some cs =>
    let initialMaxResults := parseRawMaxResults (pages 0)
    if initialMaxResults = some 1000 then
      qbWhileRaw pages fuel 1 cs initialMaxResults
    else some (.ok cs)

/-- The raw view of a stream of present-array responses. -/
def rawOf {α : Type} (pages : Nat → QueryResponse α) :
    Nat → RawQueryResponse α :=
  fun n => ⟨some (pages n).customer, (pages n).maxResults⟩

/-- `refreshToken` (server.js lines 89-94) given the outcome of
`oauth.refresh()` and the prior token-file content: on success it stores
the new credential via `setAccessToken`, logs one info line and returns
the token; a rejected refresh propagates unchanged — the function has no
catch, emits no log and writes nothing. -/
def refreshToken (outcome : Except JsError Credential) (store : Option JVal) :
    Except JsError (Credential × Option JVal × List LogEvent) :=
  match outcome with
  | .error e => .error e
  | .ok t =>
      .ok (t, setAccessToken t store,
        [.info "Successfully refreshed access token!"])

/-- The `setInterval` callback (server.js lines 77-79): it just invokes
`refreshToken` with no catch around it, so the tick's outcome is exactly
the refresh's outcome. -/
def scheduledTick (outcome : Except JsError Credential)
    (store : Option JVal) :
    Except JsError (Credential × Option JVal × List LogEvent) :=
  refreshToken outcome store

/-- The repeating timer: tick `n` invokes the refresh path on the n-th
refresh outcome, independently of every other tick. -/
def schedulerRun (outcomes : Nat → Except JsError Credential)
    (stores : Nat → Option JVal) (n : Nat) :
    Except JsError (Credential × Option JVal × List LogEvent) :=
  scheduledTick (outcomes n) (stores n)

/-- The fault marker of a QBO response body: `json.fault`, whose `error`
member is what the code wraps in the thrown Error. -/
structure QBFault where
  error : String
deriving DecidableEq

/-- A parsed response body: the optional fault marker and the rest of the
payload. -/
structure QBJson (β : Type) where
  fault : Option QBFault
  payload : β

/-- What `oauth.makeApiCall` resolves to: the HTTP status code and the
parsed JSON body. The status is never inspected by `quickbooks`. -/
structure ApiResponse (β : Type) where
  status : Nat
  json : QBJson β

/-- The try-block of `quickbooks` (server.js lines 97-114): fail fast when
the realm id is absent or empty, propagate a transport rejection, throw
`new Error(fault.error)` when the body carries a fault marker, and
otherwise return the parsed body. -/
def quickbooksTry {β : Type} (realmId : Option String)
    (apiCall : Except JsError (ApiResponse β)) :
    Except JsError (QBJson β) :=
  match realmId with
  | none => .error (mkError "No company ID. Not connected to QB?")
  | some cid =>
    if cid = "" then .error (mkError "No company ID. Not connected to QB?")
    else
      match apiCall with
      | .error e => .error e
      | .ok resp =>
        match resp.json.fault with
        | some f => .error (mkError f.error)
        | none => .ok resp.json

/-- `quickbooks` (server.js lines 96-119): the try-block wrapped in the
catch-clause, which re-wraps an error carrying an `error` property as
`new Error(err.error)` and rethrows every other error unchanged. -/
def quickbooks {β : Type} (realmId : Option String)
    (apiCall : Except JsError (ApiResponse β)) :
    Except JsError (QBJson β) :=
  match quickbooksTry realmId apiCall with
  | .ok v => .ok v
  | .error e =>
    match e.error with
    | some s => .error (mkError s)
    | none => .error e

/-- The JSON body sent by the `GET /` handler. -/
structure QbStatusBody where
  appAuthorized : Bool
  oauthToken : Option Credential
deriving DecidableEq

/-- `qbStatus` (server.js lines 142-147): responds with the literal body
regardless of the session's state — the handler never reads the OAuth
session. -/
def qbStatus (_session : Option Credential) : QbStatusBody :=
  { appAuthorized := false, oauthToken := none }

/-- The handlers bound by the route registrations. -/
inductive Handler
  | qbStatusH
  | authorizeH
  | intuitCallbackH
  | doRefreshTokenH
  | isTokenValidH
  | getCompanyInfoH
  | getCustomersH
  | generateFakeCustomersH
deriving DecidableEq

/-- A registered route: its path, whether `decodeUserToken` precedes the
handler, and the handler. -/
structure Route where
  path : String
  guarded : Bool
  handler : Handler
deriving DecidableEq

/-- The route registrations of the constructor (server.js lines 56-64):
every route lists `decodeUserToken` before its handler except
`GET /callback`. -/
def registeredRoutes : List Route :=
  [⟨"/", true, .qbStatusH⟩,
   ⟨"/authorize", true, .authorizeH⟩,
   ⟨"/callback", false, .intuitCallbackH⟩,
   ⟨"/token/refresh", true, .doRefreshTokenH⟩,
   ⟨"/token/valid", true, .isTokenValidH⟩,
   ⟨"/company", true, .getCompanyInfoH⟩,
   ⟨"/customers", true, .getCustomersH⟩,
   ⟨"/customers/generate", true, .generateFakeCustomersH⟩]

/-- An inbound request, as far as the guard reads it: the value of the
`authorization` header, absent when the header is missing. -/
structure InboundReq where
  authorization : Option String
deriving DecidableEq

/-- Outcome of the guard before `jwt.verify` runs. -/
inductive GuardStep
  | unauthorized
  | proceed (token : String)
deriving DecidableEq

/-- `decodeUserToken` up to its early 401 (server.js lines 39-41): the
token is `headers.authorization.split(' ')[1]` when the header is truthy,
`null` otherwise; a falsy token (absent header, no second segment, or an
empty second segment) answers 401 Unauthorized without invoking anything
further. -/
def decodeUserToken (r : InboundReq) : GuardStep :=
  match r.authorization with
  | none => .unauthorized
  | some h =>
    if h = "" then .unauthorized
    else
      match (h.splitOn " ").get? 1 with
      | none => .unauthorized
      | some t => if t = "" then .unauthorized else .proceed t

/-- What a dispatched request resolves to before the handler's own body:
either the guard's 401 response or the invocation of the handler. -/
inductive RouteOutcome
  | unauthorized401 (body : String)
  | invoked (h : Handler)
deriving DecidableEq

/-- Dispatch of one registered route: guarded routes run `decodeUserToken`
first and only invoke the handler when the guard proceeds; unguarded
routes invoke the handler directly. -/
def dispatch (rt : Route) (r : InboundReq) : RouteOutcome :=
  if rt.guarded then
    match decodeUserToken r with
    | .unauthorized => .unauthorized401 "Unauthorized"
    | .proceed _ => .invoked rt.handler
  else .invoked rt.handler

/-! Concrete response streams and values used to instantiate the theorems. -/

/-- Two full pages followed by a short one: a customer table with more
than two full pages worth of rows. Indices beyond the short page repeat
it (they are never requested). -/
def threePages : Nat → QueryResponse Nat
  | 0 => ⟨List.replicate 1000 7, some "1000"⟩
  | 1 => ⟨List.replicate 1000 8, some "1000"⟩
  | _ => ⟨[9], some "1"⟩

/-- A full page followed by a short page of one record. -/
def twoPages : Nat → QueryResponse Nat
  | 0 => ⟨List.replicate 1000 7, some "1000"⟩
  | _ => ⟨[9], some "1"⟩

/-- A stream whose first page is empty and well formed. -/
def emptyPages : Nat → QueryResponse Nat := fun _ => ⟨[], some "0"⟩

/-- The real QBO empty-result response: the first page's QueryResponse is
the empty object, carrying neither a Customer array nor a maxResults
field. -/
def rawEmptyPages : Nat → RawQueryResponse Nat := fun _ => ⟨none, none⟩

/-- A stream whose first page is short (two records). -/
def shortPages : Nat → QueryResponse Nat := fun _ => ⟨[4, 2], some "2"⟩

/-- One page claiming a full `maxResults` field, then a page whose
`maxResults` field is missing from the body. -/
def nanPages : Nat → QueryResponse Nat
  | 0 => ⟨[1, 2, 3], some "1000"⟩
  | _ => ⟨[5], none⟩

/-- A sample fully-present credential. -/
def sampleCredential : Credential :=
  ⟨"sample-access", "sample-refresh", "4620816365213364510", "bearer",
    3600, 8726400⟩

/-- A sample rejection of `oauth.refresh()`. -/
def sampleJsError : JsError := mkError "The Refresh token is invalid"

/-- A sample response body carrying a fault marker. -/
def faultyBody : QBJson Nat :=
  { fault := some ⟨"ValidationFault"⟩, payload := 0 }

/-- A sample response body without a fault marker. -/
def cleanBody : QBJson Nat :=
  { fault := none, payload := 5 }

/-! Helper lemmas about the pagination loop. -/

lemma qbWhileRaw_of_present {α : Type} (pages : Nat → QueryResponse α) :
    ∀ (fuel i : Nat) (acc : List α) (mr : Option Int)
      (reqs : List (Option Int)),
      qbWhileRaw (rawOf pages) fuel i acc mr =
        (qbWhile pages fuel i acc mr reqs).map (fun r => Except.ok r.1) := by
  intro fuel
  induction fuel with
  | zero =>
    intro i acc mr reqs
    by_cases h : mr = some 1000 <;> simp [qbWhileRaw, qbWhile, h]
  | succ f ih =>
    intro i acc mr reqs
    by_cases h : mr = some 1000
    · simp only [qbWhileRaw, qbWhile, h, if_pos rfl, rawOf]
      rw [ih (i + 1) (acc ++ (pages i).customer) (parseRawMaxResults
        ⟨some (pages i).customer, (pages i).maxResults⟩)
        (reqs ++ [some ((some (1000 : Int)).getD 0)])]
      rfl
    · simp [qbWhileRaw, qbWhile, h]

/-- On streams whose Customer arrays are all present, the raw fetch model
agrees with `getAllCustomers`: same termination, same records, never a
thrown TypeError. -/
lemma getAllCustomersRaw_of_present {α : Type}
    (pages : Nat → QueryResponse α) (fuel : Nat) :
    getAllCustomersRaw (rawOf pages) fuel =
      (getAllCustomers pages fuel).map (fun r => Except.ok r.1) := by
  by_cases h : parseMaxResults (pages 0) = some 1000
  · have hraw : parseRawMaxResults
        (⟨some (pages 0).customer, (pages 0).maxResults⟩ :
          RawQueryResponse α) = some 1000 := h
    simp only [getAllCustomersRaw, getAllCustomers, rawOf, hraw, h,
      if_pos rfl]
    exact qbWhileRaw_of_present pages fuel 1 (pages 0).customer
      (some 1000) [none]
  · have hraw : ¬ parseRawMaxResults
        (⟨some (pages 0).customer, (pages 0).maxResults⟩ :
          RawQueryResponse α) = some 1000 := h
    simp [getAllCustomersRaw, getAllCustomers, rawOf, hraw, h]

lemma qbWhile_succ_full {α : Type} (pages : Nat → QueryResponse α)
    (f i : Nat) (acc : List α) (reqs : List (Option Int)) :
    qbWhile pages (f + 1) i acc (some 1000) reqs =
      qbWhile pages f (i + 1) (acc ++ (pages i).customer)
        (parseMaxResults (pages i)) (reqs ++ [some 1000]) := rfl

lemma qbWhile_all_full {α : Type} (pages : Nat → QueryResponse α)
    (h : ∀ j, parseMaxResults (pages j) = some 1000) :
    ∀ (fuel i : Nat) (acc : List α) (reqs : List (Option Int)),
      qbWhile pages fuel i acc (some 1000) reqs = none := by
  intro fuel
  induction fuel with
  | zero => intro i acc reqs; simp [qbWhile]
  | succ f ih => intro i acc reqs; simp [qbWhile, h i, ih]

lemma qbWhile_stops {α : Type} (pages : Nat → QueryResponse α) :
    ∀ (d i : Nat) (acc : List α) (reqs : List (Option Int)),
      (∀ j, i ≤ j → j < i + d → parseMaxResults (pages j) = some 1000) →
      parseMaxResults (pages (i + d)) ≠ some 1000 →
      qbWhile pages (d + 1) i acc (some 1000) reqs =
        some (acc ++ pagesSlice pages i (d + 1),
              reqs ++ List.replicate (d + 1) (some 1000)) := by
  intro d
  induction d with
  | zero =>
    intro i acc reqs _ hstop
    rw [Nat.add_zero] at hstop
    simp [qbWhile, pagesSlice, hstop]
  | succ d ih =>
    intro i acc reqs hfull hstop
    have hi : parseMaxResults (pages i) = some 1000 :=
      hfull i (Nat.le_refl i) (by omega)
    have hstop' : parseMaxResults (pages (i + 1 + d)) ≠ some 1000 := by
      have he : i + 1 + d = i + (d + 1) := by omega
      rw [he]; exact hstop
    have hrec := ih (i + 1) (acc ++ (pages i).customer)
      (reqs ++ [some 1000])
      (fun j h1 h2 => hfull j (by omega) (by omega)) hstop'
    rw [qbWhile_succ_full, hi, hrec]
    simp [pagesSlice, List.replicate_succ]

lemma getAllCustomers_all_full {α : Type} (pages : Nat → QueryResponse α)
    (h : ∀ j, parseMaxResults (pages j) = some 1000) (fuel : Nat) :
    getAllCustomers pages fuel = none := by
  simp [getAllCustomers, h 0, qbWhile_all_full pages h]

lemma getAllCustomers_stops {α : Type} (pages : Nat → QueryResponse α)
    (k : Nat)
    (hfull : ∀ j, j < k → parseMaxResults (pages j) = some 1000)
    (hstop : parseMaxResults (pages k) ≠ some 1000) :
    getAllCustomers pages k =
      some (pagesSlice pages 0 (k + 1),
            none :: List.replicate k (some 1000)) := by
  cases k with
  | zero =>
    simp [getAllCustomers, pagesSlice, hstop]
  | succ d =>
    have h0 : parseMaxResults (pages 0) = some 1000 := hfull 0 (by omega)
    have hstop' : parseMaxResults (pages (1 + d)) ≠ some 1000 := by
      have he : 1 + d = d + 1 := by omega
      rw [he]; exact hstop
    have hb := qbWhile_stops pages d 1 (pages 0).customer [none]
      (fun j h1 h2 => hfull j (by omega)) hstop'
    simp only [getAllCustomers, h0, if_pos rfl]
    rw [hb]
    simp [pagesSlice]

/-! Claim theorems. -/

/-- C2: over well-formed remote pages (the maxResults field reports the
record count, which never exceeds 1000), the getAllCustomers loop
terminates precisely when some page's record count is strictly below
1000 — with every page full it runs out of any fuel bound — and on the
first short page k it stops, returning every record fetched so far
(pages 0 through k concatenated in request order). -/
theorem getAllCustomers_terminates_iff_short_page {α : Type}
    (pages : Nat → QueryResponse α) (hwf : ∀ n, WF (pages n)) :
    ((∃ fuel res, getAllCustomers pages fuel = some res) ↔
      ∃ n, (pages n).customer.length < 1000) ∧
    (∀ k, (pages k).customer.length < 1000 →
      (∀ j, j < k → (pages j).customer.length = 1000) →
      ∃ fuel res, getAllCustomers pages fuel = some res ∧
        res.1 = pagesSlice pages 0 (k + 1)) := by
  have hparse : ∀ n, parseMaxResults (pages n) =
      some ((pages n).customer.length : Int) := fun n => (hwf n).1
  have hle : ∀ n, (pages n).customer.length ≤ 1000 := fun n => (hwf n).2
  have hstopOf : ∀ k, (pages k).customer.length < 1000 →
      parseMaxResults (pages k) ≠ some 1000 := by
    intro k hk hc
    rw [hparse k] at hc
    have := Option.some.inj hc
    omega
  have hfullOf : ∀ j, (pages j).customer.length = 1000 →
      parseMaxResults (pages j) = some 1000 := by
    intro j hj
    rw [hparse j, hj]
    rfl
  refine ⟨⟨?_, ?_⟩, ?_⟩
  · rintro ⟨fuel, res, hres⟩
    by_contra hno
    push_neg at hno
    have hfull : ∀ j, parseMaxResults (pages j) = some 1000 := fun j =>
      hfullOf j (le_antisymm (hle j) (hno j))
    rw [getAllCustomers_all_full pages hfull fuel] at hres
    exact Option.noConfusion hres
  · rintro ⟨n, hn⟩
    have hex : ∃ m, (pages m).customer.length < 1000 := ⟨n, hn⟩
    refine ⟨Nat.find hex, _,
      getAllCustomers_stops pages (Nat.find hex) ?_
        (hstopOf _ (Nat.find_spec hex))⟩
    intro j hj
    exact hfullOf j (le_antisymm (hle j) (Nat.not_lt.mp (Nat.find_min hex hj)))
  · intro k hk hprev
    exact ⟨k, _,
      getAllCustomers_stops pages k (fun j hj => hfullOf j (hprev j hj))
        (hstopOf k hk), rfl⟩

/-- C2 witness: on the stream whose first page holds two records, the
loop terminates with a result. -/
theorem getAllCustomers_terminates_iff_short_page_witness :
    ∃ fuel res, getAllCustomers shortPages fuel = some res :=
  (getAllCustomers_terminates_iff_short_page shortPages
      (fun _ => show WF (⟨[4, 2], some "2"⟩ : QueryResponse Nat) by decide)).1.2
    ⟨0, by decide⟩

/-- C10: when every page before page k reports a full maxResults field and
page k's maxResults field is missing or non-numeric (parseInt yields NaN,
which is not 1000), the loop stops right after fetching page k and
returns the records accumulated so far, although no record count below
1000 was observed. -/
theorem getAllCustomers_nan_stops {α : Type} (pages : Nat → QueryResponse α)
    (k : Nat)
    (hfull : ∀ j, j < k → parseMaxResults (pages j) = some 1000)
    (hnan : parseMaxResults (pages k) = none) :
    getAllCustomers pages k =
      some (pagesSlice pages 0 (k + 1),
            none :: List.replicate k (some 1000)) :=
  getAllCustomers_stops pages k hfull
    (by rw [hnan]; exact fun h => Option.noConfusion h)

/-- C10 witness: one full-reporting page followed by a page whose
maxResults field is missing stops the loop after that page. -/
theorem getAllCustomers_nan_stops_witness :
    getAllCustomers nanPages 1 =
      some (pagesSlice nanPages 0 2, none :: List.replicate 1 (some 1000)) :=
  getAllCustomers_nan_stops nanPages 1
    (fun j hj => by
      have hj0 : j = 0 := by omega
      subst hj0
      decide)
    (by decide)

/-- C4: evaluated at the real QBO encoding of an empty customer set — the
first page's QueryResponse is the empty object, its Customer array and
maxResults field both absent — the fetch does not return an empty
sequence: the spread of the absent array at server.js line 125 throws a
TypeError, for every fuel bound. Only a body carrying an explicit empty
Customer array (second conjunct) would return the empty sequence the
claim and the spec's boundary property describe. -/
theorem getAllCustomers_empty_raises :
    (∀ fuel, getAllCustomersRaw rawEmptyPages fuel =
      some (Except.error spreadTypeError)) ∧
    (∀ fuel, getAllCustomersRaw (rawOf emptyPages) fuel =
      some (Except.ok [])) :=
  ⟨fun _ => rfl, fun _ => rfl⟩

set_option maxRecDepth 40000 in
/-- C3: with remote pages of 1000 and 1 records, getAllCustomers returns
the two pages concatenated in request order — 1001 records — from exactly
two outbound requests: the first with no STARTPOSITION clause (offset 0)
and the second with STARTPOSITION 1000. -/
theorem getAllCustomers_two_page_run :
    getAllCustomers twoPages 1 =
      some ((twoPages 0).customer ++ (twoPages 1).customer,
            [none, some 1000]) ∧
    ((twoPages 0).customer ++ (twoPages 1).customer).length = 1001 ∧
    [none, some 1000].map offsetOfReq = [0, 1000] := by
  refine ⟨rfl, by simp [twoPages], rfl⟩

set_option maxRecDepth 40000 in
/-- C1: evaluated on a three-page stream (1000 records, 1000 records,
then a short page), the request trace is
[no clause, STARTPOSITION 1000, STARTPOSITION 1000]: the page fetched by
the second request holds exactly 1000 records, yet the third request
repeats start offset 1000 instead of a strictly greater one, so the
successive offsets 0, 1000, 1000 are not strictly increasing. -/
theorem getAllCustomers_offset_stuck :
    (getAllCustomers threePages 2).map Prod.snd =
      some [none, some 1000, some 1000] ∧
    (threePages 1).customer.length = 1000 ∧
    strictlyIncreasing ([none, some 1000, some 1000].map offsetOfReq) =
      false := by
  refine ⟨rfl, by simp [threePages], by decide⟩

/-- C5: with a realm id bound and a response delivered by the transport,
the quickbooks call raises the normalized error built from the fault
marker whenever one is present — it never returns that body — and returns
the parsed JSON body when no fault marker is present; the outcome is the
same for every HTTP status code, which the function never inspects. -/
theorem quickbooks_fault_policy {β : Type} (realmId : String)
    (hrid : realmId ≠ "") (resp : ApiResponse β) :
    (∀ f, resp.json.fault = some f →
      quickbooks (some realmId) (Except.ok resp) =
        Except.error (mkError f.error)) ∧
    (resp.json.fault = none →
      quickbooks (some realmId) (Except.ok resp) = Except.ok resp.json) ∧
    (∀ s : Nat,
      quickbooks (some realmId) (Except.ok { resp with status := s }) =
        quickbooks (some realmId) (Except.ok resp)) := by
  refine ⟨?_, ?_, ?_⟩
  · intro f hf
    simp [quickbooks, quickbooksTry, hrid, hf, mkError]
  · intro hf
    simp [quickbooks, quickbooksTry, hrid, hf]
  · intro s
    rcases resp with ⟨st, json⟩
    rfl

/-- C5 witness: a fault-marked body with a 200 status is rejected with the
normalized error. -/
theorem quickbooks_fault_policy_witness :
    quickbooks (some "4620816365213364510")
        (Except.ok ({ status := 200, json := faultyBody } : ApiResponse Nat)) =
      Except.error (mkError "ValidationFault") :=
  (quickbooks_fault_policy "4620816365213364510" (by decide)
      { status := 200, json := faultyBody }).1 ⟨"ValidationFault"⟩ rfl

/-- C6 counterexample: a failed scheduled refresh is not logged and
absorbed — the tick's outcome is the rejection itself, never an ok
result, and the failure path emits no log event and writes nothing. -/
theorem scheduledTick_error_escapes :
    scheduledTick (Except.error sampleJsError) none =
      Except.error sampleJsError ∧
    ¬ ∃ r, scheduledTick (Except.error sampleJsError) none =
      Except.ok r := by
  refine ⟨rfl, ?_⟩
  rintro ⟨r, hr⟩
  simp [scheduledTick, refreshToken] at hr

/-- C6 amended: the scheduler's tick callback has no catch: a failed
refresh propagates out of the tick unchanged, with no log event emitted
and no store write on that path, while a tick whose refresh succeeds
still stores the new credential and logs as usual; every timer tick is an
independent invocation of the same refresh path, so one tick's failure
does not change what any other tick invokes. -/
theorem scheduledTick_no_catch (e : JsError) (t : Credential)
    (store : Option JVal) :
    scheduledTick (Except.error e) store = Except.error e ∧
    scheduledTick (Except.ok t) store =
      Except.ok (t, setAccessToken t store,
        [LogEvent.info "Successfully refreshed access token!"]) ∧
    (∀ (outcomes : Nat → Except JsError Credential)
        (stores : Nat → Option JVal) (n : Nat),
      schedulerRun outcomes stores n = scheduledTick (outcomes n) (stores n)) :=
  ⟨rfl, rfl, fun _ _ _ => rfl⟩

/-- C7 counterexample: with the session holding an authorized credential,
GET / still answers appAuthorized = false and a null token, so the
response's authorization boolean is not true exactly when a credential is
held. -/
theorem qbStatus_claim_false :
    ¬ ((qbStatus (some sampleCredential)).appAuthorized = true ↔
        (some sampleCredential).isSome = true) := by
  decide

/-- C7 amended: the GET / handler answers the constant body
appAuthorized = false and oauthToken = null for every session state — it
never reads the OAuth session. -/
theorem qbStatus_constant (session : Option Credential) :
    qbStatus session = { appAuthorized := false, oauthToken := none } := rfl

/-- C8: saving any fully-present credential through setAccessToken's
persistence write and reloading it through the startup load yields the
same credential, field for field, whatever the store held before. -/
theorem credential_roundtrip (c : Credential) (store : Option JVal) :
    loadStoredToken (setAccessToken c store) = some c := rfl

/-- C9: every registered route other than GET /callback is guarded by
decodeUserToken: a request without an authorization header is answered
401 Unauthorized and the route handler is not invoked; GET /callback is
registered unguarded on the authorization-completion handler, which is
invoked for every request. -/
theorem routes_guard_policy (rt : Route) (hrt : rt ∈ registeredRoutes) :
    (rt.path ≠ "/callback" → rt.guarded = true ∧
      ∀ r : InboundReq, r.authorization = none →
        dispatch rt r = RouteOutcome.unauthorized401 "Unauthorized") ∧
    (rt.path = "/callback" → rt.guarded = false ∧
      rt.handler = Handler.intuitCallbackH ∧
      ∀ r : InboundReq, dispatch rt r = RouteOutcome.invoked rt.handler) := by
  simp only [registeredRoutes, List.mem_cons, List.not_mem_nil, or_false] at hrt
  rcases hrt with rfl | rfl | rfl | rfl | rfl | rfl | rfl | rfl
  all_goals
    first
      | exact ⟨fun hpath => ⟨rfl, fun r hr => by
            rcases r with ⟨auth⟩
            cases hr
            rfl⟩,
          fun hpath => absurd hpath (by decide)⟩
      | exact ⟨fun hpath => absurd rfl hpath,
          fun _ => ⟨rfl, rfl, fun r => rfl⟩⟩

/-- C9 witness: GET /customers with no authorization header is answered
401 Unauthorized. -/
theorem routes_guard_policy_witness :
    dispatch ⟨"/customers", true, Handler.getCustomersH⟩ ⟨none⟩ =
      RouteOutcome.unauthorized401 "Unauthorized" :=
  ((routes_guard_policy ⟨"/customers", true, Handler.getCustomersH⟩
      (by decide)).1 (by decide)).2 ⟨none⟩ rfl

end HelioQB
